import Mathlib

/-!
Verification of the URL recognition and metadata-resolution subsystem of the
ReciPick recipe-scrapbook client.

The development shallow-embeds the JavaScript source of `urlParser.js`
(the version with the Apify scraping tiers, Invidious failover and the
TikTok/Instagram metadata chains).  Regular expressions are embedded as an
explicit abstract syntax (`Regex`) together with a backtracking matcher
(`mtch`) reproducing the JavaScript `String.prototype.match` semantics used
by the source: leftmost match, alternation preferring the left branch,
greedy quantifiers with backtracking, case-insensitive comparison (the `i`
flag) and numbered capture groups where an unmatched group is undefined
(modelled as an absent entry, read back as the empty string by `jsGroup`,
matching how the source only ever uses groups through `match[n] || ...`
style accesses and `match[n] ? ... : ...` truthiness tests).

Network-facing functions take the outcome of each network request as an
explicit oracle argument: `NetResult.ok body` models a successful response
with parsed JSON `body`, and `NetResult.fail` models a transport error, a
timeout/abort, a non-success HTTP status or malformed JSON -- all of which
the source treats identically (skip the tier / continue the loop).
Optional JSON string fields are modelled as `String` with `""` standing
for `undefined`; this is observationally faithful because the source only
reads such fields through the JavaScript `||` operator, for which both
`undefined` and `""` are falsy (`jsOr`).
-/

namespace ReciPick

/-! ### Character classes and case-insensitive comparison -/

/-- Simple ASCII case folding: the code point of an upper-case ASCII letter
is shifted to the corresponding lower-case letter, every other code point
is unchanged.  This models the `i` flag of the source's regular
expressions for the ASCII literals they contain. -/
def lowerNat (n : Nat) : Nat := if 65 ≤ n ∧ n ≤ 90 then n + 32 else n

/-- Case-insensitive character equality (the `i` flag). -/
def eqCI (a b : Char) : Bool := lowerNat a.toNat == lowerNat b.toNat

/-- `between lo hi c` holds when the code point of `c` lies in `[lo, hi]`;
used to spell out the character ranges of the source's regex classes. -/
def between (lo hi : Nat) (c : Char) : Bool :=
  decide (lo ≤ c.toNat) && decide (c.toNat ≤ hi)

/-- The class `[A-Za-z0-9_-]` (Instagram / YouTube media ids). -/
def idChar (c : Char) : Bool :=
  between 65 90 c || between 97 122 c || between 48 57 c || c == '_' || c == '-'

/-- The class `\d` (TikTok numeric ids, Naver clip ids). -/
def digitChar (c : Char) : Bool := between 48 57 c

/-- The class `[A-Za-z0-9]` (TikTok short-link codes). -/
def alnumChar (c : Char) : Bool :=
  between 65 90 c || between 97 122 c || between 48 57 c

/-- The class `[^\/]` (TikTok creator handles). -/
def notSlashChar (c : Char) : Bool := !(c == '/')

/-- The class `[^\/\?]` (Instagram profile segment). -/
def notSlashQmChar (c : Char) : Bool := !(c == '/' || c == '?')

/-! ### Regular-expression syntax and matcher -/

/-- Abstract syntax of the regular-expression fragment used by
`URL_PATTERNS`: literal character sequences (compared case-insensitively),
`class+` (one-or-more over a character class), concatenation, alternation,
`(?:...)?` option and numbered capture groups. -/
inductive Regex where
  | lit (l : List Char)
  | plusCls (p : Char → Bool)
  | seq (a b : Regex)
  | alt (a b : Regex)
  | opt (a : Regex)
  | group (i : Nat) (a : Regex)

/-- Capture-group environment: the entry for group `i`, if any.  A later
binding for the same index shadows an earlier one. -/
abbrev Groups := List (Nat × String)

def setG (i : Nat) (s : String) (g : Groups) : Groups := (i, s) :: g

/-- Read group `i` the way the JavaScript source does: an unset group
(`undefined`) behaves as the empty string under the `||` and `? :`
accesses the source performs on it. -/
def jsGroup (g : Groups) (i : Nat) : String :=
  match g.find? (fun e => e.1 == i) with
  | some e => e.2
  | none => ""

/-- Continuations of the backtracking matcher: receive the unconsumed rest
of the input and the capture environment. -/
abbrev Cont := List Char → Groups → Option Groups

/-- `ciFront l cs` holds when `l` is a case-insensitive front segment of
`cs`. -/
def ciFront : List Char → List Char → Bool
  | [], _ => true
  | _ :: _, [] => false
  | a :: l, b :: cs => eqCI a b && ciFront l cs

/-- Greedy `class+`: consume one or more characters of the class,
preferring the longest consumption and backtracking to shorter ones (the
capture environment is unchanged by a character class). -/
def plusM (p : Char → Bool) (g : Groups) (k : Cont) : List Char → Option Groups
  | [] => none
  | c :: cs =>
    if p c then
      match plusM p g k cs with
      | some r => some r
      | none => k cs g
    else none

/-- Backtracking matcher in continuation-passing style, anchored at the
start of `cs`.  Alternation tries the left branch first; `opt` prefers
consuming; a capture group records exactly the characters its body
consumed. -/
def mtch : Regex → List Char → Groups → Cont → Option Groups
  | .lit l, cs, g, k => if ciFront l cs then k (cs.drop l.length) g else none
  | .plusCls p, cs, g, k => plusM p g k cs
  | .seq a b, cs, g, k => mtch a cs g (fun cs2 g2 => mtch b cs2 g2 k)
  | .alt a b, cs, g, k =>
    match mtch a cs g k with
    | some r => some r
    | none => mtch b cs g k
  | .opt a, cs, g, k =>
    match mtch a cs g k with
    | some r => some r
    | none => k cs g
  | .group i a, cs, g, k =>
    mtch a cs g
      (fun cs2 g2 => k cs2 (setG i (String.mk (cs.take (cs.length - cs2.length))) g2))

/-- Top continuation: accept whatever is left and return the captures. -/
def topk : Cont := fun _ g => some g

/-- JavaScript `String.prototype.match` (without the `g` flag): try the
pattern at every start position from the left and return the captures of
the first position that matches. -/
def searchFrom (r : Regex) : List Char → Option Groups
  | [] =>
    match mtch r [] [] topk with
    | some g => some g
    | none => none
  | c :: cs =>
    match mtch r (c :: cs) [] topk with
    | some g => some g
    | none => searchFrom r cs

/-! ### The pattern registry (`URL_PATTERNS`) -/

/-- `(?:https?:\/\/)?` -/
def optScheme : Regex :=
  .opt (.seq (.lit "http".data) (.seq (.opt (.lit "s".data)) (.lit "://".data)))

/-- `(?:www\.)?` -/
def optWww : Regex := .opt (.lit "www.".data)

/-- `/(?:https?:\/\/)?(?:www\.)?instagram\.com\/(reel|p)\/([A-Za-z0-9_-]+)/i` -/
def instagramPattern : Regex :=
  .seq optScheme (.seq optWww (.seq (.lit "instagram.com/".data)
    (.seq (.group 1 (.alt (.lit "reel".data) (.lit "p".data)))
      (.seq (.lit "/".data) (.group 2 (.plusCls idChar))))))

/-- `/instagram\.com\/([^\/\?]+)/i` -/
def instagramProfilePattern : Regex :=
  .seq (.lit "instagram.com/".data) (.group 1 (.plusCls notSlashQmChar))

/-- `youtube\.com\/(?:watch\?v=|shorts\/)` -/
def ytB1 : Regex :=
  .seq (.lit "youtube.com/".data)
    (.alt (.lit "watch?v=".data) (.lit "shorts/".data))

/-- `youtu\.be\/` -/
def ytB2 : Regex := .lit "youtu.be/".data

/-- `/(?:https?:\/\/)?(?:www\.)?(?:youtube\.com\/(?:watch\?v=|shorts\/)|youtu\.be\/)([A-Za-z0-9_-]+)/i` -/
def youtubePattern : Regex :=
  .seq optScheme (.seq optWww (.seq (.alt ytB1 ytB2)
    (.group 1 (.plusCls idChar))))

/-- `/(?:https?:\/\/)?(?:www\.)?(?:tiktok\.com\/@([^\/]+)\/video\/(\d+)|(?:vm|vt)\.tiktok\.com\/([A-Za-z0-9]+))/i` -/
def tiktokPattern : Regex :=
  .seq optScheme (.seq optWww
    (.alt
      (.seq (.lit "tiktok.com/@".data)
        (.seq (.group 1 (.plusCls notSlashChar))
          (.seq (.lit "/video/".data) (.group 2 (.plusCls digitChar)))))
      (.seq (.alt (.lit "vm".data) (.lit "vt".data))
        (.seq (.lit ".tiktok.com/".data) (.group 3 (.plusCls alnumChar))))))

/-- `/(?:https?:\/\/)?(?:m\.)?(?:tv\.)?naver\.com\/(?:v|clip)\/(\d+)/i` -/
def naverPattern : Regex :=
  .seq optScheme (.seq (.opt (.lit "m.".data)) (.seq (.opt (.lit "tv.".data))
    (.seq (.lit "naver.com/".data)
      (.seq (.alt (.lit "v".data) (.lit "clip".data))
        (.seq (.lit "/".data) (.group 1 (.plusCls digitChar)))))))

/-- One entry of the `URL_PATTERNS` table. -/
structure PlatformConfig where
  pattern : Regex
  profilePattern : Option Regex
  name : String
  label : String

def instagramConfig : PlatformConfig :=
  { pattern := instagramPattern, profilePattern := some instagramProfilePattern,
    name := "instagram", label := "Instagram" }

def youtubeConfig : PlatformConfig :=
  { pattern := youtubePattern, profilePattern := none,
    name := "youtube", label := "YouTube" }

def tiktokConfig : PlatformConfig :=
  { pattern := tiktokPattern, profilePattern := none,
    name := "tiktok", label := "TikTok" }

def naverConfig : PlatformConfig :=
  { pattern := naverPattern, profilePattern := none,
    name := "naver", label := "Naver" }

/-- `URL_PATTERNS`, in object-literal insertion order (the iteration order
of `Object.entries` used by `parseUrl`). -/
def URL_PATTERNS : List PlatformConfig :=
  [instagramConfig, youtubeConfig, tiktokConfig, naverConfig]

/-! ### `parseUrl` and its helpers -/

/-- The fields of the JavaScript `Date` that `parseUrl` reads:
`month` is the 0-based `getMonth()` value and `day` is `getDate()`. -/
structure JsDate where
  month : Nat
  day : Nat

/-- `` `${today.getMonth() + 1}/${today.getDate()}` `` -/
def dateStr (d : JsDate) : String := Nat.repr (d.month + 1) ++ "/" ++ Nat.repr d.day

/-- `` `https://img.youtube.com/vi/${videoId}/maxresdefault.jpg` `` -/
def ytThumbUrl (videoId : String) : String :=
  "https://img.youtube.com/vi/" ++ videoId ++ "/maxresdefault.jpg"

/-- `getThumbnailUrl(source, videoId)`. -/
def getThumbnailUrl (source videoId : String) : Option String :=
  if videoId = "" then none
  else if source = "youtube" then some (ytThumbUrl videoId)
  else none

/-- JavaScript `a || b` on strings, where both `undefined` (modelled `""`)
and the empty string are falsy. -/
def jsOr (a b : String) : String := if a = "" then b else a

/-- ASCII white space trimmed by `String.prototype.trim` (space, tab, LF,
CR, VT, FF; the exotic Unicode space code points are not modelled). -/
def isJsWS (c : Char) : Bool :=
  c.toNat == 32 || c.toNat == 9 || c.toNat == 10 || c.toNat == 13 ||
  c.toNat == 11 || c.toNat == 12

/-- `url.trim()`. -/
def trimList (l : List Char) : List Char :=
  ((l.dropWhile isJsWS).reverse.dropWhile isJsWS).reverse

/-- The classification record returned by `parseUrl`. -/
structure ParseResult where
  url : String
  source : String
  sourceLabel : String
  videoId : String
  creatorHandle : String
  suggestedTitle : String
  isTempTitle : Bool
  thumbnail : Option String
deriving DecidableEq

/-- The `for (const [sourceName, config] of Object.entries(URL_PATTERNS))`
loop body of `parseUrl`: first pattern match wins, with the per-platform
extraction rules of the source. -/
def parseLoop (today : JsDate) (trimmed : List Char) :
    List PlatformConfig → Option ParseResult
  | [] => none
  | config :: rest =>
    match searchFrom config.pattern trimmed with
    | none => parseLoop today trimmed rest
    | some m =>
      let creatorHandle : String :=
        if config.name = "instagram" then
          match config.profilePattern with
          | some pp =>
            match searchFrom pp trimmed with
            | some pm =>
              if jsGroup pm 1 ≠ "reel" ∧ jsGroup pm 1 ≠ "p" then
                "@" ++ jsGroup pm 1
              else ""
            | none => ""
          | none => ""
        else if config.name = "tiktok" then
          if jsGroup m 1 ≠ "" then "@" ++ jsGroup m 1 else ""
        else ""
      let videoId : String :=
        if config.name = "instagram" then jsGroup m 2
        else if config.name = "youtube" then jsGroup m 1
        else if config.name = "tiktok" then jsOr (jsGroup m 2) (jsGroup m 3)
        else if config.name = "naver" then jsGroup m 1
        else ""
      some {
        url := String.mk trimmed
        source := config.name
        sourceLabel := config.label
        videoId := videoId
        creatorHandle := creatorHandle
        suggestedTitle := config.label ++ " 레시피 (" ++ dateStr today ++ ")"
        isTempTitle := config.name != "youtube" && config.name != "instagram"
        thumbnail := getThumbnailUrl config.name videoId }

/-- `parseUrl(url)`.  The wall-clock date read via `new Date()` is an
explicit argument.  `if (!url) return null` is the empty-string falsiness
test on the string input. -/
def parseUrl (today : JsDate) (url : String) : Option ParseResult :=
  if url = "" then none
  else parseLoop today (trimList url.data) URL_PATTERNS

/-- `isValidUrl(url)`: `parseUrl(url) !== null`. -/
def isValidUrl (today : JsDate) (url : String) : Bool :=
  (parseUrl today url).isSome

/-! ### Network oracle -/

/-- Outcome of one network request, supplied as an oracle argument.
`ok body` is a successful response whose JSON parsed to `body`; `fail`
covers everything the source recovers from identically: a thrown fetch /
abort-timeout, a non-success HTTP status (`!response.ok`) and malformed
JSON. -/
inductive NetResult (α : Type) where
  | ok (body : α)
  | fail
deriving DecidableEq

/-! ### `fetchInstagramMetadata` -/

/-- The fields of an Apify Instagram scraper item that
`fetchInstagramMetadata` reads (`""` models an absent field). -/
structure InstaItem where
  caption : String
  ownerUsername : String
  displayUrl : String
  thumbnailUrl : String
deriving DecidableEq

/-- The record `fetchInstagramMetadata` returns. -/
structure InstaMeta where
  title : String
  description : String
  authorName : String
  thumbnail : String
  source : String
deriving DecidableEq

/-- `caption.split('\n')[0]`: the prefix of `s` before its first newline. -/
def firstLine (s : String) : String :=
  String.mk (s.data.takeWhile (fun c => !(c == '\n')))

/-- `s.substring(0, 100)` (a hard 100-character cut). -/
def take100 (s : String) : String := String.mk (s.data.take 100)

/-- `` `https://www.instagram.com/p/${postId}/media/?size=l` `` -/
def igMediaUrl (postId : String) : String :=
  "https://www.instagram.com/p/" ++ postId ++ "/media/?size=l"

/-- `fetchInstagramMetadata(postId, apifyApiToken)`.  `apifyRes` is the
outcome of the single Apify POST request (only issued when a token is
supplied).  The function never returns `null`: every failure path reaches
the manual-construction fallback at the end of the source. -/
def fetchInstagramMetadata (postId apifyApiToken : String)
    (apifyRes : NetResult (List InstaItem)) : InstaMeta :=
  let fromApify : Option InstaMeta :=
    if apifyApiToken ≠ "" then
      match apifyRes with
      | .ok (item :: _) =>
        let caption := item.caption
        let ownerUsername := item.ownerUsername
        let displayUrl := jsOr item.displayUrl item.thumbnailUrl
        some {
          title := if caption ≠ "" then take100 (firstLine caption)
                   else "Instagram Post by " ++ jsOr ownerUsername "Unknown"
          description := caption
          authorName := if ownerUsername ≠ "" then "@" ++ ownerUsername else ""
          thumbnail := jsOr displayUrl (igMediaUrl postId)
          source := "instagram" }
      | .ok [] => none
      | .fail => none
    else none
  match fromApify with
  | some m => m
  | none =>
    { title := "Instagram Post (" ++ postId ++ ")"
      description := ""
      authorName := ""
      thumbnail := igMediaUrl postId
      source := "instagram" }

/-! ### YouTube chain -/

/-- `INVIDIOUS_INSTANCES`. -/
def INVIDIOUS_INSTANCES : List String :=
  ["https://inv.tux.pizza",
   "https://invidious.jing.rocks",
   "https://vid.puffyan.us",
   "https://inv.bp.projectsegfau.lt",
   "https://invidious.nerdvpn.de"]

/-- The per-instance abort timeout set by `fetchFromInvidious`
(`setTimeout(() => controller.abort(), 2000)`), in milliseconds.  In this
embedding, an elapsed timeout is one of the request outcomes folded into
`NetResult.fail`. -/
def INVIDIOUS_TIMEOUT_MS : Nat := 2000

/-- The JSON body of a successful Invidious `/api/v1/videos/{id}`
response.  `fetchYouTubeMetadata` spreads this body unchanged into its
result, so its fields are never inspected by the chain itself. -/
structure InvBody where
  title : String
  author : String
  description : String
deriving DecidableEq

/-- The `for (const base of INVIDIOUS_INSTANCES)` loop of
`fetchFromInvidious`: any failure continues with the next instance. -/
def invidiousLoop (net : String → NetResult InvBody) (videoId : String) :
    List String → Option InvBody
  | [] => none
  | base :: rest =>
    match net (base ++ "/api/v1/videos/" ++ videoId) with
    | .ok body => some body
    | .fail => invidiousLoop net videoId rest

/-- `fetchFromInvidious(videoId)`: failover over the five configured
instances in list order; returns `null` instead of throwing when every
instance fails. -/
def fetchFromInvidious (net : String → NetResult InvBody) (videoId : String) :
    Option InvBody :=
  invidiousLoop net videoId INVIDIOUS_INSTANCES

/-- The URL requested from instance `i` of `INVIDIOUS_INSTANCES`. -/
def mirrorUrl (i : Nat) (videoId : String) : String :=
  (INVIDIOUS_INSTANCES.getD i "") ++ "/api/v1/videos/" ++ videoId

/-- `snippet` of a YouTube Data API item, with the two thumbnail
candidates probed by `fetchFromYouTubeAPI` (`""` models absence of the
optional-chained field). -/
structure YtSnippet where
  title : String
  channelTitle : String
  description : String
  thumbMaxresUrl : String
  thumbHighUrl : String
deriving DecidableEq

/-- Parsed body of a YouTube Data API response (`items` missing is
modelled as `[]`, which the source treats identically). -/
structure YtApiData where
  items : List YtSnippet
deriving DecidableEq

/-- The record built by `fetchFromYouTubeAPI`. -/
structure YtApiMeta where
  title : String
  authorName : String
  description : String
  thumbnail : String
deriving DecidableEq

/-- `fetchFromYouTubeAPI(videoId, apiKey)`. -/
def fetchFromYouTubeAPI (videoId apiKey : String)
    (res : NetResult YtApiData) : Option YtApiMeta :=
  if apiKey = "" then none
  else
    match res with
    | .fail => none
    | .ok data =>
      match data.items with
      | [] => none
      | it :: _ =>
        some { title := it.title
               authorName := it.channelTitle
               description := it.description
               thumbnail := jsOr it.thumbMaxresUrl
                              (jsOr it.thumbHighUrl (ytThumbUrl videoId)) }

/-- Parsed body of a YouTube oEmbed response. -/
structure OEmbedData where
  title : String
  author_name : String
  thumbnail_url : String
deriving DecidableEq

/-- The record built by `fetchFromOEmbed` (`data.title || null` makes the
title and author nullable). -/
structure OEmbedMeta where
  title : Option String
  authorName : Option String
  description : String
  thumbnail : String
deriving DecidableEq

/-- `fetchFromOEmbed(videoId)`. -/
def fetchFromOEmbed (videoId : String) (res : NetResult OEmbedData) :
    Option OEmbedMeta :=
  match res with
  | .fail => none
  | .ok d =>
    some { title := if d.title = "" then none else some d.title
           authorName := if d.author_name = "" then none else some d.author_name
           description := ""
           thumbnail := jsOr d.thumbnail_url (ytThumbUrl videoId) }

/-- The fields of an Apify YouTube scraper item probed by
`fetchYouTubeMetadata` (`error` is the truthiness of `item.error`; string
fields use `""` for absence). -/
structure YtApifyItem where
  error : Bool
  title : String
  description : String
  text : String
  shortDescription : String
  metaDescription : String
  videoDescription : String
  desc : String
  channelName : String
  author : String
  channelTitle : String
  uploader : String
  thumbnailUrl : String
deriving DecidableEq

/-- The record built by the Apify tier of `fetchYouTubeMetadata`. -/
structure YtApifyMeta where
  title : String
  description : String
  authorName : String
  thumbnail : String
deriving DecidableEq

/-- Result of `fetchYouTubeMetadata`: one constructor per tier, since each
tier returns its own record shape with its own `source` tag (the source
spreads the tier's fields and adds `source`). -/
inductive YtResult where
  | apify (m : YtApifyMeta)
  | invidious (b : InvBody)
  | ytapi (m : YtApiMeta)
  | oembed (m : OEmbedMeta)
deriving DecidableEq

/-- The `source` tag carried by each tier's result. -/
def YtResult.source : YtResult → String
  | .apify _ => "apify_youtube"
  | .invidious _ => "invidious"
  | .ytapi _ => "youtube_api"
  | .oembed _ => "oembed"

/-- The network behaviour seen by one `fetchYouTubeMetadata` call: the
outcome of the Apify POST, of each Invidious GET (keyed by request URL),
of the Data API GET and of the oEmbed GET. -/
structure YtNet where
  apify : NetResult (List YtApifyItem)
  invidious : String → NetResult InvBody
  ytapi : NetResult YtApiData
  oembed : NetResult OEmbedData

/-- `fetchYouTubeMetadata(videoId, youtubeApiKey, apifyApiToken)` with the
four-tier fallback: Apify (token-gated) → Invidious → Data API
(key-gated) → oEmbed; returns `null` when every tier fails. -/
def fetchYouTubeMetadata (videoId youtubeApiKey apifyApiToken : String)
    (net : YtNet) : Option YtResult :=
  let apifyStep : Option YtResult :=
    if apifyApiToken ≠ "" then
      match net.apify with
      | .ok (item :: _) =>
        if item.error || item.title == "" then none
        else
          some (.apify {
            title := item.title
            description := jsOr item.description (jsOr item.text
              (jsOr item.shortDescription (jsOr item.metaDescription
                (jsOr item.videoDescription (jsOr item.desc "")))))
            authorName := jsOr item.channelName (jsOr item.author
              (jsOr item.channelTitle (jsOr item.uploader "")))
            thumbnail := jsOr item.thumbnailUrl (ytThumbUrl videoId) })
      | .ok [] => none
      | .fail => none
    else none
  match apifyStep with
  | some r => some r
  | none =>
    match fetchFromInvidious net.invidious videoId with
    | some b => some (.invidious b)
    | none =>
      match (if youtubeApiKey ≠ "" then
               fetchFromYouTubeAPI videoId youtubeApiKey net.ytapi
             else none) with
      | some m => some (.ytapi m)
      | none =>
        match fetchFromOEmbed videoId net.oembed with
        | some m => some (.oembed m)
        | none => none

/-! ### `fetchTikTokMetadata` -/

/-- The fields of an Apify TikTok scraper item probed by
`fetchTikTokMetadata` (optional-chained paths flattened; `""` models
absence). -/
structure TtItem where
  text : String
  desc : String
  authorMetaName : String
  authorMetaNickName : String
  author : String
  videoMetaCoverUrl : String
  imageUrl : String
  videoCover : String
  id : String
  webVideoUrl : String
deriving DecidableEq

/-- The record `fetchTikTokMetadata` returns.  `videoId`, `canonicalUrl`
and `originalData` are only present on the Apify success path. -/
structure TtMeta where
  title : String
  description : String
  authorName : String
  thumbnail : String
  source : String
  videoId : Option String
  canonicalUrl : Option String
  originalData : Option TtItem
deriving DecidableEq

/-- `webVideoUrl.split('/').pop()`. -/
def lastUrlSegment (s : String) : String := (s.splitOn "/").getLastD ""

/-- `fetchTikTokMetadata(url, apifyApiToken)`.  `apifyRes` is the outcome
of the single Apify POST (only issued when a token is supplied); `today`
is the date read by the `parseUrl` calls of both fallback paths.  The
function never returns `null`. -/
def fetchTikTokMetadata (today : JsDate) (url apifyApiToken : String)
    (apifyRes : NetResult (List TtItem)) : TtMeta :=
  if apifyApiToken = "" then
    let parsed := parseUrl today url
    { title := jsOr (match parsed with
                     | some p => p.suggestedTitle
                     | none => "") "TikTok Video"
      description := ""
      authorName := match parsed with
                    | some p => p.creatorHandle
                    | none => ""
      thumbnail := ""
      source := "tiktok"
      videoId := none
      canonicalUrl := none
      originalData := none }
  else
    let fromApify : Option TtMeta :=
      match apifyRes with
      | .ok (item :: _) =>
        let title := jsOr item.text (jsOr item.desc "TikTok Video")
        let author := jsOr item.authorMetaName
                        (jsOr item.authorMetaNickName (jsOr item.author ""))
        let description := jsOr item.text ""
        let thumbnail := jsOr item.videoMetaCoverUrl
                           (jsOr item.imageUrl (jsOr item.videoCover ""))
        let canonicalVideoId : Option String :=
          if item.id ≠ "" then some item.id
          else if item.webVideoUrl ≠ "" then some (lastUrlSegment item.webVideoUrl)
          else none
        -- `${canonicalVideoId}` interpolates JavaScript null as "null"
        let canonicalUrl := jsOr item.webVideoUrl
          ("https://www.tiktok.com/@" ++ author ++ "/video/" ++
            (match canonicalVideoId with | some v => v | none => "null"))
        some { title := take100 title
               description := description
               authorName := if author ≠ "" then "@" ++ author else ""
               thumbnail := thumbnail
               source := "tiktok"
               videoId := canonicalVideoId
               canonicalUrl := some canonicalUrl
               originalData := some item }
      | .ok [] => none
      | .fail => none
    match fromApify with
    | some m => m
    | none =>
      let parsed := parseUrl today url
      { title := jsOr (match parsed with
                       | some p => p.suggestedTitle
                       | none => "") "TikTok Video"
        description := ""
        authorName := match parsed with
                      | some p => p.creatorHandle
                      | none => ""
        thumbnail := ""
        source := "tiktok"
        videoId := none
        canonicalUrl := none
        originalData := none }

/-! ### Matcher lemmas -/

theorem jsGroup_setG_self (i : Nat) (s : String) (g : Groups) :
    jsGroup (setG i s g) i = s := by
  simp [jsGroup, setG, List.find?]

theorem ciFront_length : ∀ (l cs : List Char), ciFront l cs = true →
    l.length ≤ cs.length := by
  intro l
  induction l with
  | nil => intro cs _; simp
  | cons a l ih =>
    intro cs h
    cases cs with
    | nil => simp [ciFront] at h
    | cons b cs =>
      simp only [ciFront, Bool.and_eq_true] at h
      have := ih cs h.2
      simp only [List.length_cons]
      omega

theorem ciFront_getElem : ∀ (l cs : List Char), ciFront l cs = true →
    ∀ (i : Nat) (cl : Char), l[i]? = some cl →
      ∃ c, cs[i]? = some c ∧ eqCI cl c = true := by
  intro l
  induction l with
  | nil => intro cs _ i cl hget; simp at hget
  | cons a l ih =>
    intro cs h i cl hget
    cases cs with
    | nil => simp [ciFront] at h
    | cons b cs =>
      simp only [ciFront, Bool.and_eq_true] at h
      cases i with
      | zero =>
        simp only [List.getElem?_cons_zero, Option.some.injEq] at hget
        subst hget
        exact ⟨b, by simp, h.1⟩
      | succ i =>
        simp only [List.getElem?_cons_succ] at hget ⊢
        exact ih cs h.2 i cl hget

theorem plusM_cont (p : Char → Bool) (g : Groups) (k : Cont) :
    ∀ (cs : List Char) (res : Groups), plusM p g k cs = some res →
      ∃ n, 1 ≤ n ∧ n ≤ cs.length ∧ k (cs.drop n) g = some res := by
  intro cs
  induction cs with
  | nil => intro res h; simp [plusM] at h
  | cons c cs ih =>
    intro res h
    simp only [plusM] at h
    by_cases hp : p c = true
    · rw [if_pos hp] at h
      cases hplus : plusM p g k cs with
      | some r =>
        rw [hplus] at h
        simp only [Option.some.injEq] at h
        subst h
        obtain ⟨n, h1, h2, h3⟩ := ih r hplus
        exact ⟨n + 1, by omega, by simp only [List.length_cons]; omega,
          by simpa [List.drop_succ_cons] using h3⟩
      | none =>
        rw [hplus] at h
        exact ⟨1, le_refl _, by simp, by simpa using h⟩
    · rw [if_neg hp] at h
      simp at h

theorem mtch_cont :
    ∀ (a : Regex) (cs : List Char) (g : Groups) (k : Cont) (res : Groups),
      mtch a cs g k = some res →
      ∃ n g2, n ≤ cs.length ∧ k (cs.drop n) g2 = some res := by
  intro a
  induction a with
  | lit l =>
    intro cs g k res h
    simp only [mtch] at h
    split at h
    · exact ⟨l.length, g, ciFront_length l cs (by assumption), h⟩
    · simp at h
  | plusCls p =>
    intro cs g k res h
    simp only [mtch] at h
    obtain ⟨n, _, h2, h3⟩ := plusM_cont p g k cs res h
    exact ⟨n, g, h2, h3⟩
  | seq a b iha ihb =>
    intro cs g k res h
    simp only [mtch] at h
    obtain ⟨n1, g1, hn1, h1⟩ := iha cs g _ res h
    obtain ⟨n2, g2, hn2, h2⟩ := ihb _ g1 k res h1
    refine ⟨n1 + n2, g2, ?_, ?_⟩
    · have hlen : (cs.drop n1).length = cs.length - n1 := List.length_drop n1 cs
      omega
    · rw [List.drop_drop] at h2
      exact h2
  | alt a b iha ihb =>
    intro cs g k res h
    simp only [mtch] at h
    cases hma : mtch a cs g k with
    | some r =>
      rw [hma] at h
      simp only [Option.some.injEq] at h
      subst h
      exact iha cs g k r hma
    | none =>
      rw [hma] at h
      exact ihb cs g k res h
  | opt a iha =>
    intro cs g k res h
    simp only [mtch] at h
    cases hma : mtch a cs g k with
    | some r =>
      rw [hma] at h
      simp only [Option.some.injEq] at h
      subst h
      exact iha cs g k r hma
    | none =>
      rw [hma] at h
      exact ⟨0, g, by omega, by simpa using h⟩
  | group i a iha =>
    intro cs g k res h
    simp only [mtch] at h
    obtain ⟨n, g2, hn, hk⟩ := iha cs g _ res h
    exact ⟨n, setG i (String.mk (cs.take (cs.length - (cs.drop n).length))) g2, hn, hk⟩

theorem mk_ne_empty_of_ne_nil {l : List Char} (h : l ≠ []) :
    String.mk l ≠ "" := by
  intro hc
  exact h (congrArg String.data hc)

theorem group_plus_last (i : Nat) (p : Char → Bool) (cs : List Char)
    (g res : Groups)
    (h : mtch (.group i (.plusCls p)) cs g topk = some res) :
    ∃ s, s ≠ "" ∧ res = setG i s g := by
  simp only [mtch] at h
  obtain ⟨n, h1, h2, h3⟩ := plusM_cont p g _ cs res h
  simp only [topk, List.length_drop, Option.some.injEq] at h3
  refine ⟨String.mk (cs.take (cs.length - (cs.length - n))), ?_, h3.symm⟩
  apply mk_ne_empty_of_ne_nil
  intro hnil
  have := congrArg List.length hnil
  simp only [List.length_take, List.length_nil] at this
  omega

theorem plusM_full (p : Char → Bool) (g : Groups) (k : Cont) :
    ∀ (cs : List Char), cs ≠ [] → (∀ c ∈ cs, p c = true) →
      ∀ r, k [] g = some r → plusM p g k cs = some r := by
  intro cs
  induction cs with
  | nil => intro h; exact absurd rfl h
  | cons c cs ih =>
    intro _ hall r hk
    have hc : p c = true := hall c (by simp)
    simp only [plusM, if_pos hc]
    cases cs with
    | nil => simp [plusM, hk]
    | cons d ds =>
      rw [ih (by simp) (fun x hx => hall x (by simp [hx])) r hk]

theorem group_plus_full (i : Nat) (p : Char → Bool) (cs : List Char)
    (g : Groups) (h1 : cs ≠ []) (h2 : ∀ c ∈ cs, p c = true) :
    mtch (.group i (.plusCls p)) cs g topk = some (setG i (String.mk cs) g) := by
  simp only [mtch]
  apply plusM_full _ _ _ cs h1 h2
  simp [topk, List.take_length]

theorem alt_left (a b : Regex) (cs : List Char) (g : Groups) (k : Cont)
    (res : Groups) (h : mtch a cs g k = some res) :
    mtch (.alt a b) cs g k = some res := by
  simp [mtch, h]

theorem alt_skip (a b : Regex) (cs : List Char) (g : Groups) (k : Cont)
    (h : mtch a cs g k = none) :
    mtch (.alt a b) cs g k = mtch b cs g k := by
  simp [mtch, h]

theorem alt_some_inv (a b : Regex) (cs : List Char) (g : Groups) (k : Cont)
    (res : Groups) (h : mtch (.alt a b) cs g k = some res) :
    mtch a cs g k = some res ∨ mtch b cs g k = some res := by
  simp only [mtch] at h
  cases hma : mtch a cs g k with
  | some r =>
    rw [hma] at h
    exact Or.inl h
  | none =>
    rw [hma] at h
    exact Or.inr h

theorem lit_fail (l cs : List Char) (g : Groups) (k : Cont)
    (h : ciFront l cs = false) : mtch (.lit l) cs g k = none := by
  simp [mtch, h]

theorem ciFront_append : ∀ (l l2 cs : List Char), l.length ≤ l2.length →
    ciFront l (l2 ++ cs) = ciFront l l2 := by
  intro l
  induction l with
  | nil => intro l2 cs _; simp [ciFront]
  | cons a l ih =>
    intro l2 cs hlen
    cases l2 with
    | nil => simp at hlen
    | cons b l2 =>
      simp only [List.cons_append, ciFront, List.append_eq]
      rw [ih l2 cs (by simpa using hlen)]

theorem lit_step (l l2 cs : List Char) (g : Groups) (k : Cont)
    (h1 : ciFront l l2 = true) (h2 : l.length = l2.length) :
    mtch (.lit l) (l2 ++ cs) g k = k cs g := by
  simp only [mtch]
  rw [ciFront_append l l2 cs (le_of_eq h2), h1, if_pos rfl, h2, List.drop_left]

theorem seq_lit_step (l l2 cs : List Char) (g : Groups) (k : Cont) (b : Regex)
    (h1 : ciFront l l2 = true) (h2 : l.length = l2.length) :
    mtch (.seq (.lit l) b) (l2 ++ cs) g k = mtch b cs g k := by
  simp only [mtch]
  rw [ciFront_append l l2 cs (le_of_eq h2), h1, if_pos rfl, h2, List.drop_left]

theorem seq_lit_fail (l cs : List Char) (g : Groups) (k : Cont) (b : Regex)
    (h : ciFront l cs = false) :
    mtch (.seq (.lit l) b) cs g k = none := by
  simp only [mtch]
  rw [h]
  simp

theorem opt_skip (a : Regex) (cs : List Char) (g : Groups) (k : Cont)
    (h : mtch a cs g k = none) : mtch (.opt a) cs g k = k cs g := by
  simp [mtch, h]

theorem optScheme_skip (d : Char) (cs : List Char) (g : Groups) (k : Cont)
    (h : eqCI 'h' d = false) :
    mtch optScheme (d :: cs) g k = k (d :: cs) g := by
  apply opt_skip
  apply seq_lit_fail
  show ciFront ('h' :: 't' :: 't' :: 'p' :: []) (d :: cs) = false
  simp [ciFront, h]

theorem optWww_skip (d : Char) (cs : List Char) (g : Groups) (k : Cont)
    (h : eqCI 'w' d = false) :
    mtch optWww (d :: cs) g k = k (d :: cs) g := by
  apply opt_skip
  apply lit_fail
  show ciFront ('w' :: 'w' :: 'w' :: '.' :: []) (d :: cs) = false
  simp [ciFront, h]

theorem searchFrom_head (r : Regex) (cs : List Char) (g : Groups)
    (h : mtch r cs [] topk = some g) : searchFrom r cs = some g := by
  cases cs with
  | nil => simp [searchFrom, h]
  | cons c cs => simp [searchFrom, h]

theorem searchFrom_some_inv (r : Regex) :
    ∀ (cs : List Char) (g : Groups), searchFrom r cs = some g →
      ∃ n, mtch r (cs.drop n) [] topk = some g := by
  intro cs
  induction cs with
  | nil =>
    intro g h
    simp only [searchFrom] at h
    cases hm : mtch r [] [] topk with
    | some g2 => rw [hm] at h; exact ⟨0, hm.trans h⟩
    | none => rw [hm] at h; simp at h
  | cons c cs ih =>
    intro g h
    simp only [searchFrom] at h
    cases hm : mtch r (c :: cs) [] topk with
    | some g2 => rw [hm] at h; exact ⟨0, hm.trans h⟩
    | none =>
      rw [hm] at h
      obtain ⟨n, hn⟩ := ih g h
      exact ⟨n + 1, by simpa [List.drop_succ_cons] using hn⟩

theorem searchFrom_none_of (r : Regex) :
    ∀ (cs : List Char), (∀ n, mtch r (cs.drop n) [] topk = none) →
      searchFrom r cs = none := by
  intro cs
  induction cs with
  | nil =>
    intro h
    have h0 := h 0
    simp only [List.drop_nil] at h0
    simp [searchFrom, h0]
  | cons c cs ih =>
    intro h
    have h0 := h 0
    simp only [List.drop_zero] at h0
    simp only [searchFrom, h0]
    exact ih (fun n => by simpa [List.drop_succ_cons] using h (n + 1))

theorem seq_some_inv (a b : Regex) (cs : List Char) (g : Groups) (k : Cont)
    (res : Groups) (h : mtch (.seq a b) cs g k = some res) :
    ∃ cs2 g2, mtch b cs2 g2 k = some res := by
  simp only [mtch] at h
  obtain ⟨n, g2, _, hk⟩ := mtch_cont a cs g _ res h
  exact ⟨cs.drop n, g2, hk⟩

theorem jsOr_ne_empty (a b : String) (hb : b ≠ "") : jsOr a b ≠ "" := by
  unfold jsOr
  split
  · exact hb
  · assumption

/-! ### Non-empty capture groups of the four patterns -/

theorem ig_group2 (t : List Char) (g : Groups)
    (h : searchFrom instagramPattern t = some g) : jsGroup g 2 ≠ "" := by
  obtain ⟨n, hm⟩ := searchFrom_some_inv _ t g h
  rw [instagramPattern] at hm
  obtain ⟨c1, g1, hm⟩ := seq_some_inv _ _ _ _ _ _ hm
  obtain ⟨c2, g2, hm⟩ := seq_some_inv _ _ _ _ _ _ hm
  obtain ⟨c3, g3, hm⟩ := seq_some_inv _ _ _ _ _ _ hm
  obtain ⟨c4, g4, hm⟩ := seq_some_inv _ _ _ _ _ _ hm
  obtain ⟨c5, g5, hm⟩ := seq_some_inv _ _ _ _ _ _ hm
  obtain ⟨s, hs, rfl⟩ := group_plus_last _ _ _ _ _ hm
  rwa [jsGroup_setG_self]

theorem yt_group1 (t : List Char) (g : Groups)
    (h : searchFrom youtubePattern t = some g) : jsGroup g 1 ≠ "" := by
  obtain ⟨n, hm⟩ := searchFrom_some_inv _ t g h
  rw [youtubePattern] at hm
  obtain ⟨c1, g1, hm⟩ := seq_some_inv _ _ _ _ _ _ hm
  obtain ⟨c2, g2, hm⟩ := seq_some_inv _ _ _ _ _ _ hm
  obtain ⟨c3, g3, hm⟩ := seq_some_inv _ _ _ _ _ _ hm
  obtain ⟨s, hs, rfl⟩ := group_plus_last _ _ _ _ _ hm
  rwa [jsGroup_setG_self]

theorem nv_group1 (t : List Char) (g : Groups)
    (h : searchFrom naverPattern t = some g) : jsGroup g 1 ≠ "" := by
  obtain ⟨n, hm⟩ := searchFrom_some_inv _ t g h
  rw [naverPattern] at hm
  obtain ⟨c1, g1, hm⟩ := seq_some_inv _ _ _ _ _ _ hm
  obtain ⟨c2, g2, hm⟩ := seq_some_inv _ _ _ _ _ _ hm
  obtain ⟨c3, g3, hm⟩ := seq_some_inv _ _ _ _ _ _ hm
  obtain ⟨c4, g4, hm⟩ := seq_some_inv _ _ _ _ _ _ hm
  obtain ⟨c5, g5, hm⟩ := seq_some_inv _ _ _ _ _ _ hm
  obtain ⟨c6, g6, hm⟩ := seq_some_inv _ _ _ _ _ _ hm
  obtain ⟨s, hs, rfl⟩ := group_plus_last _ _ _ _ _ hm
  rwa [jsGroup_setG_self]

theorem tt_videoId (t : List Char) (g : Groups)
    (h : searchFrom tiktokPattern t = some g) :
    jsOr (jsGroup g 2) (jsGroup g 3) ≠ "" := by
  obtain ⟨n, hm⟩ := searchFrom_some_inv _ t g h
  rw [tiktokPattern] at hm
  obtain ⟨c1, g1, hm⟩ := seq_some_inv _ _ _ _ _ _ hm
  obtain ⟨c2, g2, hm⟩ := seq_some_inv _ _ _ _ _ _ hm
  rcases alt_some_inv _ _ _ _ _ _ hm with hm | hm
  · obtain ⟨c3, g3, hm⟩ := seq_some_inv _ _ _ _ _ _ hm
    obtain ⟨c4, g4, hm⟩ := seq_some_inv _ _ _ _ _ _ hm
    obtain ⟨c5, g5, hm⟩ := seq_some_inv _ _ _ _ _ _ hm
    obtain ⟨s, hs, rfl⟩ := group_plus_last _ _ _ _ _ hm
    rw [jsGroup_setG_self]
    unfold jsOr
    rw [if_neg hs]
    exact hs
  · obtain ⟨c3, g3, hm⟩ := seq_some_inv _ _ _ _ _ _ hm
    obtain ⟨c4, g4, hm⟩ := seq_some_inv _ _ _ _ _ _ hm
    obtain ⟨s, hs, rfl⟩ := group_plus_last _ _ _ _ _ hm
    apply jsOr_ne_empty
    rwa [jsGroup_setG_self]

/-! ### Inversion of `parseUrl` -/

theorem parseUrl_inv (today : JsDate) (url : String) (c : ParseResult)
    (h : parseUrl today url = some c) :
    (∃ m, searchFrom instagramPattern (trimList url.data) = some m ∧
      c.source = "instagram" ∧ c.isTempTitle = false ∧ c.videoId = jsGroup m 2) ∨
    (∃ m, searchFrom youtubePattern (trimList url.data) = some m ∧
      c.source = "youtube" ∧ c.isTempTitle = false ∧ c.videoId = jsGroup m 1) ∨
    (∃ m, searchFrom tiktokPattern (trimList url.data) = some m ∧
      c.source = "tiktok" ∧ c.isTempTitle = true ∧
      c.videoId = jsOr (jsGroup m 2) (jsGroup m 3)) ∨
    (∃ m, searchFrom naverPattern (trimList url.data) = some m ∧
      c.source = "naver" ∧ c.isTempTitle = true ∧ c.videoId = jsGroup m 1) := by
  rw [parseUrl] at h
  split at h
  · exact absurd h (by simp)
  · generalize trimList url.data = t at h ⊢
    simp only [URL_PATTERNS, parseLoop, instagramConfig, youtubeConfig,
      tiktokConfig, naverConfig] at h
    cases hig : searchFrom instagramPattern t with
    | some m =>
      rw [hig] at h
      simp only [Option.some.injEq] at h
      subst h
      exact Or.inl ⟨m, rfl, rfl, by simp, by simp⟩
    | none =>
      rw [hig] at h
      cases hyt : searchFrom youtubePattern t with
      | some m =>
        rw [hyt] at h
        simp only [Option.some.injEq] at h
        subst h
        exact Or.inr (Or.inl ⟨m, rfl, rfl, by simp, by simp⟩)
      | none =>
        rw [hyt] at h
        cases htt : searchFrom tiktokPattern t with
        | some m =>
          rw [htt] at h
          simp only [Option.some.injEq] at h
          subst h
          exact Or.inr (Or.inr (Or.inl ⟨m, rfl, rfl, by simp, by simp⟩))
        | none =>
          rw [htt] at h
          cases hnv : searchFrom naverPattern t with
          | some m =>
            rw [hnv] at h
            simp only [Option.some.injEq] at h
            subst h
            exact Or.inr (Or.inr (Or.inr ⟨m, rfl, rfl, by simp, by simp⟩))
          | none =>
            rw [hnv] at h
            simp [parseLoop] at h

theorem parseLoop_none (today : JsDate) (t : List Char) :
    ∀ (cfgs : List PlatformConfig),
      (∀ cfg ∈ cfgs, searchFrom cfg.pattern t = none) →
      parseLoop today t cfgs = none := by
  intro cfgs
  induction cfgs with
  | nil => intro _; rfl
  | cons cfg rest ih =>
    intro h
    simp only [parseLoop, h cfg (by simp)]
    exact ih (fun x hx => h x (by simp [hx]))

theorem trimList_nil_of_ws (l : List Char) (h : ∀ c ∈ l, isJsWS c = true) :
    trimList l = [] := by
  unfold trimList
  rw [List.dropWhile_eq_nil_iff.mpr h]
  simp

/-! ### Claims about `parseUrl` -/

/-- C2: for every URL classified by `parseUrl`, the `isTempTitle` flag of
the returned Classification is true exactly when the platform is TikTok or
Naver (and false for YouTube and Instagram). -/
theorem claim_C2_placeholder_policy (today : JsDate) (url : String)
    (c : ParseResult) (h : parseUrl today url = some c) :
    c.isTempTitle = true ↔ (c.source = "tiktok" ∨ c.source = "naver") := by
  rcases parseUrl_inv today url c h with
    ⟨m, _, hs, hi, _⟩ | ⟨m, _, hs, hi, _⟩ | ⟨m, _, hs, hi, _⟩ | ⟨m, _, hs, hi, _⟩ <;>
      rw [hs, hi] <;> decide

/-- The classification produced for the Naver URL of the C2 witness. -/
def c2Res : ParseResult :=
  { url := "https://m.naver.com/clip/998877", source := "naver",
    sourceLabel := "Naver", videoId := "998877", creatorHandle := "",
    suggestedTitle := "Naver 레시피 (10/11)", isTempTitle := true,
    thumbnail := none }

/-- C2 witness: the policy evaluated on a concrete Naver URL. -/
theorem claim_C2_placeholder_policy_witness :
    parseUrl ⟨9, 11⟩ "https://m.naver.com/clip/998877" = some c2Res ∧
      (c2Res.isTempTitle = true ↔ (c2Res.source = "tiktok" ∨ c2Res.source = "naver")) :=
  ⟨by decide, claim_C2_placeholder_policy ⟨9, 11⟩ "https://m.naver.com/clip/998877" c2Res (by decide)⟩

/-- C3: `parseUrl` classifies the canonical TikTok URL as platform
`"tiktok"` with the numeric media id and `"@chef.kim"` creator handle, and
the `vt.tiktok.com` short link as `"tiktok"` with the short code as media
id and empty creator handle. -/
theorem claim_C3_tiktok_urls (today : JsDate) :
    parseUrl today "https://www.tiktok.com/@chef.kim/video/7123456789012345678" =
      some { url := "https://www.tiktok.com/@chef.kim/video/7123456789012345678",
             source := "tiktok", sourceLabel := "TikTok",
             videoId := "7123456789012345678", creatorHandle := "@chef.kim",
             suggestedTitle := "TikTok 레시피 (" ++ dateStr today ++ ")",
             isTempTitle := true, thumbnail := none } ∧
    parseUrl today "https://vt.tiktok.com/ZS8abcd/" =
      some { url := "https://vt.tiktok.com/ZS8abcd/",
             source := "tiktok", sourceLabel := "TikTok",
             videoId := "ZS8abcd", creatorHandle := "",
             suggestedTitle := "TikTok 레시피 (" ++ dateStr today ++ ")",
             isTempTitle := true, thumbnail := none } :=
  ⟨rfl, rfl⟩

/-- C5: `parseUrl` returns `null` for the empty string, for whitespace-only
input, and for any input that matches no registered platform pattern after
trimming (and, being a total function, it never throws). -/
theorem claim_C5_unmatched_null (today : JsDate) (url : String)
    (h : url = "" ∨ (∀ c ∈ url.data, isJsWS c = true) ∨
         (∀ cfg ∈ URL_PATTERNS, searchFrom cfg.pattern (trimList url.data) = none)) :
    parseUrl today url = none := by
  rcases h with h | h | h
  · simp [parseUrl, h]
  · by_cases hempty : url = ""
    · simp [parseUrl, hempty]
    · rw [parseUrl, if_neg hempty, trimList_nil_of_ws url.data h]
      exact parseLoop_none today [] URL_PATTERNS (by decide)
  · by_cases hempty : url = ""
    · simp [parseUrl, hempty]
    · rw [parseUrl, if_neg hempty]
      exact parseLoop_none today _ URL_PATTERNS h

/-- C5 witness: an unsupported URL, a blank string and the empty string. -/
theorem claim_C5_unmatched_null_witness :
    (∀ cfg ∈ URL_PATTERNS,
      searchFrom cfg.pattern (trimList "https://example.com/foo".data) = none) ∧
    parseUrl ⟨9, 11⟩ "https://example.com/foo" = none ∧
    parseUrl ⟨9, 11⟩ "   " = none ∧
    parseUrl ⟨9, 11⟩ "" = none :=
  ⟨by decide,
   claim_C5_unmatched_null ⟨9, 11⟩ _ (Or.inr (Or.inr (by decide))),
   claim_C5_unmatched_null ⟨9, 11⟩ _ (Or.inr (Or.inl (by decide))),
   claim_C5_unmatched_null ⟨9, 11⟩ _ (Or.inl rfl)⟩

/-- C6: whenever `parseUrl` returns a Classification, its `videoId` is a
non-empty string, on every one of the four platforms. -/
theorem claim_C6_videoId_nonempty (today : JsDate) (url : String)
    (c : ParseResult) (h : parseUrl today url = some c) : c.videoId ≠ "" := by
  rcases parseUrl_inv today url c h with
    ⟨m, hm, _, _, hv⟩ | ⟨m, hm, _, _, hv⟩ | ⟨m, hm, _, _, hv⟩ | ⟨m, hm, _, _, hv⟩
  · rw [hv]; exact ig_group2 _ _ hm
  · rw [hv]; exact yt_group1 _ _ hm
  · rw [hv]; exact tt_videoId _ _ hm
  · rw [hv]; exact nv_group1 _ _ hm

/-- The classification produced for the YouTube URL of the C6 witness. -/
def c6Res : ParseResult :=
  { url := "https://youtu.be/dQw4w9WgXcQ", source := "youtube",
    sourceLabel := "YouTube", videoId := "dQw4w9WgXcQ", creatorHandle := "",
    suggestedTitle := "YouTube 레시피 (10/11)", isTempTitle := false,
    thumbnail := some "https://img.youtube.com/vi/dQw4w9WgXcQ/maxresdefault.jpg" }

/-- C6 witness: the invariant evaluated on a concrete YouTube URL. -/
theorem claim_C6_videoId_nonempty_witness :
    parseUrl ⟨9, 11⟩ "https://youtu.be/dQw4w9WgXcQ" = some c6Res ∧
      c6Res.videoId ≠ "" :=
  ⟨by decide, claim_C6_videoId_nonempty ⟨9, 11⟩ "https://youtu.be/dQw4w9WgXcQ" c6Res (by decide)⟩

/-- C8: `parseUrl` classifies `https://instagram.com/reel/ABC123` as an
Instagram post with media id `"ABC123"` and empty creator handle, and
returns `null` for the profile URL `https://instagram.com/someuser`. -/
theorem claim_C8_instagram_urls (today : JsDate) :
    parseUrl today "https://instagram.com/reel/ABC123" =
      some { url := "https://instagram.com/reel/ABC123",
             source := "instagram", sourceLabel := "Instagram",
             videoId := "ABC123", creatorHandle := "",
             suggestedTitle := "Instagram 레시피 (" ++ dateStr today ++ ")",
             isTempTitle := false, thumbnail := none } ∧
    parseUrl today "https://instagram.com/someuser" = none :=
  ⟨rfl, rfl⟩

/-- C10: `isValidUrl` returns true exactly when `parseUrl` on the same
input returns a Classification. -/
theorem claim_C10_isValidUrl (today : JsDate) (url : String) :
    isValidUrl today url = true ↔ ∃ c, parseUrl today url = some c := by
  simp [isValidUrl, Option.isSome_iff_exists]

/-! ### Claims about the metadata provider chains -/

/-- A network on which every request of the YouTube chain fails. -/
def allFailYtNet : YtNet :=
  { apify := .fail, invidious := fun _ => .fail, ytapi := .fail, oembed := .fail }

/-- C1 counterexample: with every tier failing, the YouTube chain returns
`none` rather than a fallback Metadata, and the Instagram fallback is
tagged `"instagram"` (not `"fallback"`) with title
`Instagram Post ({postId})` (not the Classification's `suggestedTitle`). -/
theorem claim_C1_counterexample :
    fetchYouTubeMetadata "dQw4w9WgXcQ" "" "" allFailYtNet = none ∧
    (fetchInstagramMetadata "ABC123" "token" .fail).source = "instagram" ∧
    (fetchInstagramMetadata "ABC123" "token" .fail).source ≠ "fallback" ∧
    (fetchInstagramMetadata "ABC123" "token" .fail).title = "Instagram Post (ABC123)" ∧
    (fetchTikTokMetadata ⟨9, 11⟩ "https://vt.tiktok.com/ZS8abcd/" "token" .fail).source
      = "tiktok" := by
  refine ⟨?_, rfl, by decide, rfl, ?_⟩
  · rfl
  · decide

/-- C1 (amended): when every network tier fails, the Instagram and TikTok
fetchers still return a Metadata built only from the id/URL -- Instagram
with title `Instagram Post ({postId})` and source tag `"instagram"`,
TikTok with title equal to the Classification's `suggestedTitle` when the
URL parses (else `"TikTok Video"`) and source tag `"tiktok"` -- but the
YouTube chain returns `none`; no tier is tagged `"fallback"`. -/
theorem claim_C1_amended (postId igToken : String) (today : JsDate)
    (url ttToken : String) (videoId youtubeApiKey apifyApiToken : String)
    (net : YtNet)
    (h1 : net.apify = .fail) (h2 : ∀ u, net.invidious u = .fail)
    (h3 : net.ytapi = .fail) (h4 : net.oembed = .fail) :
    fetchInstagramMetadata postId igToken .fail =
      { title := "Instagram Post (" ++ postId ++ ")", description := "",
        authorName := "", thumbnail := igMediaUrl postId, source := "instagram" } ∧
    fetchTikTokMetadata today url ttToken .fail =
      { title := jsOr (match parseUrl today url with
                       | some p => p.suggestedTitle
                       | none => "") "TikTok Video"
        description := ""
        authorName := match parseUrl today url with
                      | some p => p.creatorHandle
                      | none => ""
        thumbnail := "", source := "tiktok"
        videoId := none, canonicalUrl := none, originalData := none } ∧
    fetchYouTubeMetadata videoId youtubeApiKey apifyApiToken net = none := by
  refine ⟨?_, ?_, ?_⟩
  · by_cases h : igToken = "" <;> simp [fetchInstagramMetadata, h]
  · by_cases h : ttToken = "" <;> simp [fetchTikTokMetadata, h]
  · have hinv : fetchFromInvidious net.invidious videoId = none := by
      simp [fetchFromInvidious, INVIDIOUS_INSTANCES, invidiousLoop, h2]
    by_cases hA : apifyApiToken = "" <;> by_cases hK : youtubeApiKey = "" <;>
      simp [fetchYouTubeMetadata, hinv, fetchFromYouTubeAPI, fetchFromOEmbed,
        h1, h3, h4, hA, hK]

/-- C1 witness: the amended behaviour at concrete inputs. -/
theorem claim_C1_amended_witness :
    fetchInstagramMetadata "ABC123" "tok" .fail =
      { title := "Instagram Post (ABC123)", description := "", authorName := "",
        thumbnail := igMediaUrl "ABC123", source := "instagram" } ∧
    fetchTikTokMetadata ⟨9, 11⟩ "https://vt.tiktok.com/ZS8abcd/" "" .fail =
      { title := "TikTok 레시피 (10/11)", description := "", authorName := "",
        thumbnail := "", source := "tiktok", videoId := none,
        canonicalUrl := none, originalData := none } ∧
    fetchYouTubeMetadata "dQw4w9WgXcQ" "" "" allFailYtNet = none :=
  claim_C1_amended "ABC123" "tok" ⟨9, 11⟩ "https://vt.tiktok.com/ZS8abcd/" ""
    "dQw4w9WgXcQ" "" "" allFailYtNet rfl (fun _ => rfl) rfl rfl

/-- A 101-character title. -/
def longTitle : String := String.mk (List.replicate 101 'a')

/-- An Apify YouTube scraper item whose title has 101 characters. -/
def longYtItem : YtApifyItem :=
  { error := false, title := longTitle, description := "", text := "",
    shortDescription := "", metaDescription := "", videoDescription := "",
    desc := "", channelName := "", author := "", channelTitle := "",
    uploader := "", thumbnailUrl := "" }

/-- C4 counterexample: the Apify YouTube tier does not truncate -- a
101-character scraped title is returned whole, not cut to its first 100
characters. -/
theorem claim_C4_counterexample :
    (fetchYouTubeMetadata "vid" "" "tok"
      { apify := .ok [longYtItem], invidious := fun _ => .fail,
        ytapi := .fail, oembed := .fail }) =
      some (.apify { title := longTitle, description := "", authorName := "",
                     thumbnail := ytThumbUrl "vid" }) ∧
    longTitle.length = 101 ∧ longTitle ≠ take100 longTitle := by
  refine ⟨rfl, by decide, by decide⟩

/-- C4 (amended): the hard 100-character cut applies to the titles built
by the Apify Instagram tier (on the first caption line) and by the Apify
TikTok tier; the Apify YouTube tier returns `item.title` unmodified.  The
cut is `substring(0, 100)`: exactly the first 100 characters, with no
word-boundary adjustment. -/
theorem claim_C4_amended (postId tok : String) (item : InstaItem)
    (rest : List InstaItem) (today : JsDate) (url ttok : String)
    (titem : TtItem) (trest : List TtItem)
    (vid key ytok : String) (yitem : YtApifyItem) (yrest : List YtApifyItem)
    (inv : String → NetResult InvBody) (yapi : NetResult YtApiData)
    (yoe : NetResult OEmbedData)
    (hig : tok ≠ "") (hcap : item.caption ≠ "") (httk : ttok ≠ "")
    (hytok : ytok ≠ "") (hyerr : yitem.error = false) (hyt : yitem.title ≠ "") :
    (fetchInstagramMetadata postId tok (.ok (item :: rest))).title =
      take100 (firstLine item.caption) ∧
    (fetchTikTokMetadata today url ttok (.ok (titem :: trest))).title =
      take100 (jsOr titem.text (jsOr titem.desc "TikTok Video")) ∧
    (∃ m, fetchYouTubeMetadata vid key ytok
        { apify := .ok (yitem :: yrest), invidious := inv,
          ytapi := yapi, oembed := yoe } = some (.apify m) ∧
      m.title = yitem.title) ∧
    (∀ s : String, (take100 s).data = s.data.take 100) := by
  refine ⟨?_, ?_, ?_, fun s => rfl⟩
  · simp [fetchInstagramMetadata, hig, hcap]
  · simp [fetchTikTokMetadata, httk]
  · have hbeq : (yitem.title == "") = false := by
      simpa using hyt
    refine ⟨{ title := yitem.title
              description := jsOr yitem.description (jsOr yitem.text
                (jsOr yitem.shortDescription (jsOr yitem.metaDescription
                  (jsOr yitem.videoDescription (jsOr yitem.desc "")))))
              authorName := jsOr yitem.channelName (jsOr yitem.author
                (jsOr yitem.channelTitle (jsOr yitem.uploader "")))
              thumbnail := jsOr yitem.thumbnailUrl (ytThumbUrl vid) }, ?_, rfl⟩
    simp [fetchYouTubeMetadata, hytok, hyerr, hbeq]

/-- An Apify Instagram item whose caption's first line has 150
characters. -/
def longIgItem : InstaItem :=
  { caption := String.mk (List.replicate 150 'x'), ownerUsername := "chef",
    displayUrl := "", thumbnailUrl := "" }

/-- An Apify TikTok item whose `text` has 150 characters. -/
def longTtItem : TtItem :=
  { text := String.mk (List.replicate 150 'y'), desc := "",
    authorMetaName := "chef", authorMetaNickName := "", author := "",
    videoMetaCoverUrl := "", imageUrl := "", videoCover := "", id := "1",
    webVideoUrl := "" }

/-- C4 witness: the amended truncation behaviour at concrete inputs. -/
theorem claim_C4_amended_witness :
    (fetchInstagramMetadata "P" "t" (.ok [longIgItem])).title =
      take100 (firstLine longIgItem.caption) ∧
    (fetchTikTokMetadata ⟨9, 11⟩ "u" "t" (.ok [longTtItem])).title =
      take100 (jsOr longTtItem.text (jsOr longTtItem.desc "TikTok Video")) ∧
    (∃ m, fetchYouTubeMetadata "vid" "" "tok"
        { apify := .ok [longYtItem], invidious := fun _ => .fail,
          ytapi := .fail, oembed := .fail } = some (.apify m) ∧
      m.title = longYtItem.title) ∧
    (∀ s : String, (take100 s).data = s.data.take 100) :=
  claim_C4_amended "P" "t" longIgItem [] ⟨9, 11⟩ "u" "t" longTtItem []
    "vid" "" "tok" longYtItem [] (fun _ => .fail) .fail .fail
    (by decide) (by decide) (by decide) (by decide) rfl (by decide)

/-- C7: `fetchFromInvidious` tries the five configured mirrors in their
fixed list order: if the requests to the first `k` mirrors fail (timeout,
transport error or non-success response) and mirror `k` responds
successfully, the loop returns that mirror's parsed body -- for any
behaviour of the mirrors after `k`, i.e. without contacting them -- and
the chain tags the result with source `"invidious"`; if every mirror
fails the function returns `null` instead of throwing.  The per-mirror
abort timeout constant is 2000 ms and there are exactly 5 mirrors. -/
theorem claim_C7_invidious_failover (net : String → NetResult InvBody)
    (videoId : String) (k : Nat) (body : InvBody)
    (apifyRes : NetResult (List YtApifyItem)) (ytapiRes : NetResult YtApiData)
    (oembedRes : NetResult OEmbedData) (youtubeApiKey : String)
    (hk : k < INVIDIOUS_INSTANCES.length)
    (hfail : ∀ i, i < k → net (mirrorUrl i videoId) = .fail)
    (hok : net (mirrorUrl k videoId) = .ok body) :
    fetchFromInvidious net videoId = some body ∧
    fetchYouTubeMetadata videoId youtubeApiKey ""
      { apify := apifyRes, invidious := net, ytapi := ytapiRes,
        oembed := oembedRes } = some (.invidious body) ∧
    (YtResult.invidious body).source = "invidious" ∧
    (∀ net2 : String → NetResult InvBody,
      (∀ i, i < INVIDIOUS_INSTANCES.length → net2 (mirrorUrl i videoId) = .fail) →
      fetchFromInvidious net2 videoId = none) ∧
    INVIDIOUS_INSTANCES.length = 5 ∧ INVIDIOUS_TIMEOUT_MS = 2000 := by
  have hmain : fetchFromInvidious net videoId = some body := by
    have hlen : INVIDIOUS_INSTANCES.length = 5 := by decide
    rw [hlen] at hk
    simp only [fetchFromInvidious, INVIDIOUS_INSTANCES, invidiousLoop]
    interval_cases k
    · rw [show net ("https://inv.tux.pizza" ++ "/api/v1/videos/" ++ videoId) =
          NetResult.ok body from hok]
    · rw [show net ("https://inv.tux.pizza" ++ "/api/v1/videos/" ++ videoId) =
          NetResult.fail from hfail 0 (by omega),
        show net ("https://invidious.jing.rocks" ++ "/api/v1/videos/" ++ videoId) =
          NetResult.ok body from hok]
    · rw [show net ("https://inv.tux.pizza" ++ "/api/v1/videos/" ++ videoId) =
          NetResult.fail from hfail 0 (by omega),
        show net ("https://invidious.jing.rocks" ++ "/api/v1/videos/" ++ videoId) =
          NetResult.fail from hfail 1 (by omega),
        show net ("https://vid.puffyan.us" ++ "/api/v1/videos/" ++ videoId) =
          NetResult.ok body from hok]
    · rw [show net ("https://inv.tux.pizza" ++ "/api/v1/videos/" ++ videoId) =
          NetResult.fail from hfail 0 (by omega),
        show net ("https://invidious.jing.rocks" ++ "/api/v1/videos/" ++ videoId) =
          NetResult.fail from hfail 1 (by omega),
        show net ("https://vid.puffyan.us" ++ "/api/v1/videos/" ++ videoId) =
          NetResult.fail from hfail 2 (by omega),
        show net ("https://inv.bp.projectsegfau.lt" ++ "/api/v1/videos/" ++ videoId) =
          NetResult.ok body from hok]
    · rw [show net ("https://inv.tux.pizza" ++ "/api/v1/videos/" ++ videoId) =
          NetResult.fail from hfail 0 (by omega),
        show net ("https://invidious.jing.rocks" ++ "/api/v1/videos/" ++ videoId) =
          NetResult.fail from hfail 1 (by omega),
        show net ("https://vid.puffyan.us" ++ "/api/v1/videos/" ++ videoId) =
          NetResult.fail from hfail 2 (by omega),
        show net ("https://inv.bp.projectsegfau.lt" ++ "/api/v1/videos/" ++ videoId) =
          NetResult.fail from hfail 3 (by omega),
        show net ("https://invidious.nerdvpn.de" ++ "/api/v1/videos/" ++ videoId) =
          NetResult.ok body from hok]
  refine ⟨hmain, ?_, rfl, ?_, by decide, rfl⟩
  · simp [fetchYouTubeMetadata, hmain]
  · intro net2 h2
    have hlen : INVIDIOUS_INSTANCES.length = 5 := by decide
    rw [hlen] at h2
    simp only [fetchFromInvidious, INVIDIOUS_INSTANCES, invidiousLoop]
    rw [show net2 ("https://inv.tux.pizza" ++ "/api/v1/videos/" ++ videoId) =
          NetResult.fail from h2 0 (by omega),
      show net2 ("https://invidious.jing.rocks" ++ "/api/v1/videos/" ++ videoId) =
          NetResult.fail from h2 1 (by omega),
      show net2 ("https://vid.puffyan.us" ++ "/api/v1/videos/" ++ videoId) =
          NetResult.fail from h2 2 (by omega),
      show net2 ("https://inv.bp.projectsegfau.lt" ++ "/api/v1/videos/" ++ videoId) =
          NetResult.fail from h2 3 (by omega),
      show net2 ("https://invidious.nerdvpn.de" ++ "/api/v1/videos/" ++ videoId) =
          NetResult.fail from h2 4 (by omega)]

/-- A concrete mirror body for the C7 witness. -/
def c7Body : InvBody := { title := "Kimchi stew", author := "Chef Kim",
                          description := "recipe" }

/-- A network where mirror 0 times out and mirror 1 answers. -/
def c7Net : String → NetResult InvBody :=
  fun u => if u = mirrorUrl 1 "vid123" then .ok c7Body else .fail

/-- C7 witness: failover to the second mirror on a concrete network. -/
theorem claim_C7_invidious_failover_witness :
    fetchFromInvidious c7Net "vid123" = some c7Body ∧
    fetchYouTubeMetadata "vid123" "" ""
      { apify := .fail, invidious := c7Net, ytapi := .fail, oembed := .fail } =
      some (.invidious c7Body) ∧
    (YtResult.invidious c7Body).source = "invidious" ∧
    (∀ net2 : String → NetResult InvBody,
      (∀ i, i < INVIDIOUS_INSTANCES.length → net2 (mirrorUrl i "vid123") = .fail) →
      fetchFromInvidious net2 "vid123" = none) ∧
    INVIDIOUS_INSTANCES.length = 5 ∧ INVIDIOUS_TIMEOUT_MS = 2000 :=
  claim_C7_invidious_failover c7Net "vid123" 1 c7Body .fail .fail .fail ""
    (by decide) (by decide) (by decide)

/-! ### C9: the three YouTube URL variants agree on the extracted id -/

theorem mk_data (s : String) : String.mk s.data = s := rfl

theorem lit_cont (l : List Char) (cs : List Char) (g : Groups) (k : Cont)
    (res : Groups) (h : mtch (.lit l) cs g k = some res) :
    ciFront l cs = true := by
  simp only [mtch] at h
  split at h
  · assumption
  · simp at h

theorem seq_cont (a b : Regex) (cs : List Char) (g : Groups) (k : Cont)
    (res : Groups) (h : mtch (.seq a b) cs g k = some res) :
    ∃ n g2, mtch b (cs.drop n) g2 k = some res := by
  simp only [mtch] at h
  obtain ⟨n, g2, _, hk⟩ := mtch_cont a cs g _ res h
  exact ⟨n, g2, hk⟩

theorem seq_lit_cont (l : List Char) (b : Regex) (cs : List Char) (g : Groups)
    (k : Cont) (res : Groups)
    (h : mtch (.seq (.lit l) b) cs g k = some res) : ciFront l cs = true := by
  simp only [mtch] at h
  split at h
  · assumption
  · simp at h

/-- Any successful match of the Instagram pattern contains its mandatory
literal `instagram.com/` at some offset of the input. -/
theorem ig_occ (cs : List Char) (g0 r : Groups)
    (h : mtch instagramPattern cs g0 topk = some r) :
    ∃ n, ciFront "instagram.com/".data (cs.drop n) = true := by
  rw [instagramPattern] at h
  obtain ⟨n1, g1, h1⟩ := seq_cont _ _ _ _ _ _ h
  obtain ⟨n2, g2, h2⟩ := seq_cont _ _ _ _ _ _ h1
  have h3 := seq_lit_cont _ _ _ _ _ _ h2
  rw [List.drop_drop] at h3
  exact ⟨n1 + n2, h3⟩

/-- On an input whose only dot-like characters sit before offset 9, the
Instagram pattern cannot match anywhere (its literal has `.` at index 9). -/
theorem ig_fail (s : List Char)
    (hdot : ∀ n c, s[n]? = some c → eqCI '.' c = true → n < 9) :
    searchFrom instagramPattern s = none := by
  apply searchFrom_none_of
  intro n
  cases hm : mtch instagramPattern (s.drop n) [] topk with
  | none => rfl
  | some r =>
    exfalso
    obtain ⟨m, hci⟩ := ig_occ _ _ _ hm
    rw [List.drop_drop] at hci
    obtain ⟨c, hc, heq⟩ := ciFront_getElem _ _ hci 9 '.' (by decide)
    rw [List.getElem?_drop] at hc
    have := hdot _ _ hc heq
    omega

theorem idChar_toNat (c : Char) (h : idChar c = true) :
    (65 ≤ c.toNat ∧ c.toNat ≤ 90) ∨ (97 ≤ c.toNat ∧ c.toNat ≤ 122) ∨
    (48 ≤ c.toNat ∧ c.toNat ≤ 57) ∨ c.toNat = 95 ∨ c.toNat = 45 := by
  simp only [idChar, between, Bool.or_eq_true, Bool.and_eq_true,
    decide_eq_true_eq, beq_iff_eq] at h
  rcases h with (((⟨a, b⟩ | ⟨a, b⟩) | ⟨a, b⟩) | h) | h
  · exact Or.inl ⟨a, b⟩
  · exact Or.inr (Or.inl ⟨a, b⟩)
  · exact Or.inr (Or.inr (Or.inl ⟨a, b⟩))
  · subst h; exact Or.inr (Or.inr (Or.inr (Or.inl (by decide))))
  · subst h; exact Or.inr (Or.inr (Or.inr (Or.inr (by decide))))

theorem idChar_not_dot (c : Char) (h : idChar c = true) : eqCI '.' c = false := by
  have hn := idChar_toNat c h
  simp only [eqCI, beq_eq_false_iff_ne, ne_eq]
  intro hEq
  rw [show lowerNat (Char.toNat '.') = 46 from by decide] at hEq
  unfold lowerNat at hEq
  rcases hn with ⟨a, b⟩ | ⟨a, b⟩ | ⟨a, b⟩ | a | a <;> (split at hEq <;> omega)

theorem idChar_not_ws (c : Char) (h : idChar c = true) : isJsWS c = false := by
  have hn := idChar_toNat c h
  simp only [isJsWS, Bool.or_eq_false_iff, beq_eq_false_iff_ne, ne_eq]
  rcases hn with ⟨a, b⟩ | ⟨a, b⟩ | ⟨a, b⟩ | a | a <;> omega

/-- The dot-position condition of `ig_fail` holds for a concrete prefix
followed by id-class characters. -/
theorem no_dot_append (pre idl : List Char)
    (hpre : ∀ n (hn : n < pre.length), eqCI '.' (pre.get ⟨n, hn⟩) = true → n < 9)
    (hid : ∀ c ∈ idl, idChar c = true) :
    ∀ n c, (pre ++ idl)[n]? = some c → eqCI '.' c = true → n < 9 := by
  intro n c hget heq
  by_cases hn : n < pre.length
  · rw [List.getElem?_append_left hn, List.getElem?_eq_getElem hn] at hget
    simp only [Option.some.injEq] at hget
    subst hget
    exact hpre n hn (by rw [List.get_eq_getElem]; exact heq)
  · push_neg at hn
    rw [List.getElem?_append_right hn] at hget
    have hcmem : c ∈ idl := List.getElem?_mem hget
    have hfalse := idChar_not_dot c (hid c hcmem)
    rw [hfalse] at heq
    exact absurd heq (by decide)

theorem dropWhile_eq_self_of (l : List Char)
    (h : ∀ c ∈ l, isJsWS c = false) : l.dropWhile isJsWS = l := by
  cases l with
  | nil => rfl
  | cons a l => simp [List.dropWhile_cons, h a (by simp)]

theorem trimList_id (l : List Char) (h : ∀ c ∈ l, isJsWS c = false) :
    trimList l = l := by
  unfold trimList
  rw [dropWhile_eq_self_of l h]
  rw [dropWhile_eq_self_of _ (fun c hc => h c (by rwa [List.mem_reverse] at hc))]
  exact List.reverse_reverse l

/-- One unfolding of the YouTube pattern into its four sequenced parts. -/
theorem yt_unfold (cs : List Char) (g : Groups) :
    mtch youtubePattern cs g topk =
      mtch optScheme cs g (fun c1 g1 =>
        mtch optWww c1 g1 (fun c2 g2 =>
          mtch (.alt ytB1 ytB2) c2 g2 (fun c3 g3 =>
            mtch (.group 1 (.plusCls idChar)) c3 g3 topk))) := rfl

theorem yt_eval_watch (idl : List Char) (h1 : idl ≠ [])
    (h2 : ∀ c ∈ idl, idChar c = true) :
    mtch youtubePattern ("youtube.com/watch?v=".data ++ idl) [] topk =
      some (setG 1 (String.mk idl) []) := by
  rw [yt_unfold]
  rw [show ("youtube.com/watch?v=".data ++ idl) =
      'y' :: ("outube.com/watch?v=".data ++ idl) from rfl]
  rw [optScheme_skip 'y' _ _ _ (by decide)]
  rw [optWww_skip 'y' _ _ _ (by decide)]
  rw [show ('y' :: ("outube.com/watch?v=".data ++ idl)) =
      "youtube.com/".data ++ ("watch?v=".data ++ idl) from rfl]
  apply alt_left
  rw [ytB1]
  rw [seq_lit_step _ _ _ _ _ _ (by decide) rfl]
  apply alt_left
  rw [lit_step _ _ _ _ _ (by decide) rfl]
  exact group_plus_full 1 idChar idl [] h1 h2

theorem yt_eval_be (idl : List Char) (h1 : idl ≠ [])
    (h2 : ∀ c ∈ idl, idChar c = true) :
    mtch youtubePattern ("youtu.be/".data ++ idl) [] topk =
      some (setG 1 (String.mk idl) []) := by
  rw [yt_unfold]
  rw [show ("youtu.be/".data ++ idl) = 'y' :: ("outu.be/".data ++ idl) from rfl]
  rw [optScheme_skip 'y' _ _ _ (by decide)]
  rw [optWww_skip 'y' _ _ _ (by decide)]
  rw [show ('y' :: ("outu.be/".data ++ idl)) = "youtu.be/".data ++ idl from rfl]
  have hfail : ciFront "youtube.com/".data ("youtu.be/".data ++ idl) = false := by
    cases hx : ciFront "youtube.com/".data ("youtu.be/".data ++ idl) with
    | false => rfl
    | true =>
      exfalso
      obtain ⟨c, hgc, heq⟩ := ciFront_getElem _ _ hx 5 'b' (by decide)
      rw [List.getElem?_append_left (by decide)] at hgc
      rw [show (("youtu.be/".data)[5]? : Option Char) = some '.' from by decide] at hgc
      simp only [Option.some.injEq] at hgc
      subst hgc
      exact absurd heq (by decide)
  rw [show ytB1 = Regex.seq (.lit "youtube.com/".data)
      (.alt (.lit "watch?v=".data) (.lit "shorts/".data)) from rfl]
  rw [alt_skip _ _ _ _ _ (seq_lit_fail _ _ _ _ _ hfail)]
  rw [ytB2]
  rw [lit_step _ _ _ _ _ (by decide) rfl]
  exact group_plus_full 1 idChar idl [] h1 h2

theorem yt_eval_shorts (idl : List Char) (h1 : idl ≠ [])
    (h2 : ∀ c ∈ idl, idChar c = true) :
    mtch youtubePattern ("youtube.com/shorts/".data ++ idl) [] topk =
      some (setG 1 (String.mk idl) []) := by
  rw [yt_unfold]
  rw [show ("youtube.com/shorts/".data ++ idl) =
      'y' :: ("outube.com/shorts/".data ++ idl) from rfl]
  rw [optScheme_skip 'y' _ _ _ (by decide)]
  rw [optWww_skip 'y' _ _ _ (by decide)]
  rw [show ('y' :: ("outube.com/shorts/".data ++ idl)) =
      "youtube.com/".data ++ ("shorts/".data ++ idl) from rfl]
  apply alt_left
  rw [ytB1]
  rw [seq_lit_step _ _ _ _ _ _ (by decide) rfl]
  have hwfail : ciFront "watch?v=".data ("shorts/".data ++ idl) = false := by
    rw [show ("shorts/".data ++ idl) = 's' :: ("horts/".data ++ idl) from rfl]
    rw [show ("watch?v=".data) = 'w' :: "atch?v=".data from rfl]
    simp [ciFront, show eqCI 'w' 's' = false from by decide]
  rw [alt_skip _ _ _ _ _ (lit_fail _ _ _ _ hwfail)]
  rw [lit_step _ _ _ _ _ (by decide) rfl]
  exact group_plus_full 1 idChar idl [] h1 h2

/-- Assembly: when the trimmed input fails the Instagram pattern and
matches the YouTube pattern, `parseUrl` classifies it as YouTube with
capture group 1 as the video id. -/
theorem parseUrl_yt (today : JsDate) (url : String) (m : Groups)
    (hne : url ≠ "")
    (htrim : trimList url.data = url.data)
    (hig : searchFrom instagramPattern url.data = none)
    (hyt : searchFrom youtubePattern url.data = some m) :
    (parseUrl today url).map (fun c => (c.source, c.videoId)) =
      some ("youtube", jsGroup m 1) := by
  simp only [parseUrl]
  rw [if_neg hne, htrim]
  simp only [URL_PATTERNS, parseLoop, instagramConfig, youtubeConfig,
    tiktokConfig, naverConfig, hig, hyt]
  simp

/-- C9: for every id `XYZ` drawn from the id character class, the three
YouTube URL variants `youtube.com/watch?v=XYZ`, `youtu.be/XYZ` and
`youtube.com/shorts/XYZ` all classify as platform `"youtube"` with the
identical videoId `XYZ`. -/
theorem claim_C9_youtube_id_invariance (today : JsDate) (id : String)
    (h1 : id ≠ "") (h2 : ∀ c ∈ id.data, idChar c = true) :
    ((parseUrl today ("youtube.com/watch?v=" ++ id)).map
        (fun c => (c.source, c.videoId)) = some ("youtube", id)) ∧
    ((parseUrl today ("youtu.be/" ++ id)).map
        (fun c => (c.source, c.videoId)) = some ("youtube", id)) ∧
    ((parseUrl today ("youtube.com/shorts/" ++ id)).map
        (fun c => (c.source, c.videoId)) = some ("youtube", id)) := by
  have hid : id.data ≠ [] := by
    intro hc
    apply h1
    have := congrArg String.mk hc
    rwa [mk_data] at this
  refine ⟨?_, ?_, ?_⟩
  · have hd : ("youtube.com/watch?v=" ++ id).data =
        "youtube.com/watch?v=".data ++ id.data := rfl
    have hne : ("youtube.com/watch?v=" ++ id) ≠ "" := by
      intro hc
      have hdata := congrArg String.data hc
      rw [hd, show "youtube.com/watch?v=".data =
        'y' :: "outube.com/watch?v=".data from rfl] at hdata
      simp at hdata
    have htrim : trimList ("youtube.com/watch?v=" ++ id).data =
        ("youtube.com/watch?v=" ++ id).data := by
      apply trimList_id
      rw [hd]
      intro c hc
      rcases List.mem_append.mp hc with hcl | hcr
      · exact (by decide : ∀ c ∈ "youtube.com/watch?v=".data, isJsWS c = false) c hcl
      · exact idChar_not_ws c (h2 c hcr)
    have hig : searchFrom instagramPattern ("youtube.com/watch?v=" ++ id).data = none := by
      rw [hd]
      exact ig_fail _ (no_dot_append _ _ (by decide) h2)
    have hyt : searchFrom youtubePattern ("youtube.com/watch?v=" ++ id).data =
        some (setG 1 (String.mk id.data) []) := by
      rw [hd]
      exact searchFrom_head _ _ _ (yt_eval_watch id.data hid h2)
    have hfin := parseUrl_yt today _ _ hne htrim hig hyt
    rwa [jsGroup_setG_self, mk_data] at hfin
  · have hd : ("youtu.be/" ++ id).data = "youtu.be/".data ++ id.data := rfl
    have hne : ("youtu.be/" ++ id) ≠ "" := by
      intro hc
      have hdata := congrArg String.data hc
      rw [hd, show "youtu.be/".data = 'y' :: "outu.be/".data from rfl] at hdata
      simp at hdata
    have htrim : trimList ("youtu.be/" ++ id).data = ("youtu.be/" ++ id).data := by
      apply trimList_id
      rw [hd]
      intro c hc
      rcases List.mem_append.mp hc with hcl | hcr
      · exact (by decide : ∀ c ∈ "youtu.be/".data, isJsWS c = false) c hcl
      · exact idChar_not_ws c (h2 c hcr)
    have hig : searchFrom instagramPattern ("youtu.be/" ++ id).data = none := by
      rw [hd]
      exact ig_fail _ (no_dot_append _ _ (by decide) h2)
    have hyt : searchFrom youtubePattern ("youtu.be/" ++ id).data =
        some (setG 1 (String.mk id.data) []) := by
      rw [hd]
      exact searchFrom_head _ _ _ (yt_eval_be id.data hid h2)
    have hfin := parseUrl_yt today _ _ hne htrim hig hyt
    rwa [jsGroup_setG_self, mk_data] at hfin
  · have hd : ("youtube.com/shorts/" ++ id).data =
        "youtube.com/shorts/".data ++ id.data := rfl
    have hne : ("youtube.com/shorts/" ++ id) ≠ "" := by
      intro hc
      have hdata := congrArg String.data hc
      rw [hd, show "youtube.com/shorts/".data =
        'y' :: "outube.com/shorts/".data from rfl] at hdata
      simp at hdata
    have htrim : trimList ("youtube.com/shorts/" ++ id).data =
        ("youtube.com/shorts/" ++ id).data := by
      apply trimList_id
      rw [hd]
      intro c hc
      rcases List.mem_append.mp hc with hcl | hcr
      · exact (by decide : ∀ c ∈ "youtube.com/shorts/".data, isJsWS c = false) c hcl
      · exact idChar_not_ws c (h2 c hcr)
    have hig : searchFrom instagramPattern ("youtube.com/shorts/" ++ id).data = none := by
      rw [hd]
      exact ig_fail _ (no_dot_append _ _ (by decide) h2)
    have hyt : searchFrom youtubePattern ("youtube.com/shorts/" ++ id).data =
        some (setG 1 (String.mk id.data) []) := by
      rw [hd]
      exact searchFrom_head _ _ _ (yt_eval_shorts id.data hid h2)
    have hfin := parseUrl_yt today _ _ hne htrim hig hyt
    rwa [jsGroup_setG_self, mk_data] at hfin

/-- C9 witness: the invariance at the concrete id `XYZ`. -/
theorem claim_C9_youtube_id_invariance_witness :
    ("XYZ" : String) ≠ "" ∧ (∀ c ∈ ("XYZ" : String).data, idChar c = true) ∧
    ((parseUrl ⟨9, 11⟩ ("youtube.com/watch?v=" ++ "XYZ")).map
        (fun c => (c.source, c.videoId)) = some ("youtube", "XYZ")) ∧
    ((parseUrl ⟨9, 11⟩ ("youtu.be/" ++ "XYZ")).map
        (fun c => (c.source, c.videoId)) = some ("youtube", "XYZ")) ∧
    ((parseUrl ⟨9, 11⟩ ("youtube.com/shorts/" ++ "XYZ")).map
        (fun c => (c.source, c.videoId)) = some ("youtube", "XYZ")) :=
  ⟨by decide, by decide,
   (claim_C9_youtube_id_invariance ⟨9, 11⟩ "XYZ" (by decide) (by decide)).1,
   (claim_C9_youtube_id_invariance ⟨9, 11⟩ "XYZ" (by decide) (by decide)).2.1,
   (claim_C9_youtube_id_invariance ⟨9, 11⟩ "XYZ" (by decide) (by decide)).2.2⟩

end ReciPick
